import Mathlib

/-!
Verification of the security-manager dashboard client (frontend).

The embedding models the client-side logic of the operator console:
the job-list poller state transition, the duration calculator, the
token ledger, the report-modal derivations (pipeline health, empty
state) and the verification log parser.  Timestamps are modelled as
integer epoch milliseconds (the value of new Date(x).getTime());
JavaScript strings are modelled as Lean strings, with the handful of
string primitives the source uses (toLowerCase, split, includes,
padStart, toLocaleString digit grouping, the regex used by the log
parser) re-implemented character by character below.
-/

namespace SecurityManager

/-! ## JavaScript string primitives -/

/-- ASCII lowercasing, the behaviour of toLowerCase() on the status
strings compared by the source. -/
def lowerStr (s : String) : String :=
  String.mk (s.data.map Char.toLower)

/-- startsWithL hay pre tests whether pre is a prefix of hay. -/
def startsWithL : List Char → List Char → Bool
  | _, [] => true
  | [], _ :: _ => false
  | h :: t, p :: ps => h == p && startsWithL t ps

/-- includesL hay needle is the semantics of hay.includes(needle). -/
def includesL : List Char → List Char → Bool
  | [], needle => needle.isEmpty
  | h :: t, needle => startsWithL (h :: t) needle || includesL t needle

/-- splitLines is the semantics of s.split(newline): the empty string
yields one empty line, and a trailing newline yields a final empty
line. -/
def splitLines : List Char → List (List Char)
  | [] => [[]]
  | c :: cs =>
    if c == '\n' then [] :: splitLines cs
    else
      match splitLines cs with
      | [] => [[c]]
      | l :: ls => (c :: l) :: ls

/-- pad2 is n.toString().padStart(2, zero): decimal digits of a
natural number, left-padded with zeros to width two. -/
def pad2 (n : Nat) : String :=
  let s := Nat.repr n
  if s.length < 2 then String.mk ('0' :: s.data) else s

/-! ## Data model (frontend/src/api/client.ts) -/

/-- ScanResult: one job row as returned by GET /scans.  created_at and
ended_at carry parsed epoch milliseconds. -/
structure ScanResult where
  id : Int
  repo : String
  status : String
  created_at : Int
  ended_at : Option Int
  tokens_used : Nat
deriving DecidableEq

/-- ScanLog: one per-phase telemetry row as returned by
GET /scans/id/logs. -/
structure ScanLog where
  step : String
  tokens_input : Nat
  tokens_output : Nat
  tokens_total : Nat
  model : String
  message : String
  timestamp : Int
deriving DecidableEq

/-! ## Duration Calculator (Dashboard.getDuration) -/

/-- isRunning scan is the source test
status.toLowerCase() is pending or queued. -/
def isRunning (scan : ScanResult) : Bool :=
  lowerStr scan.status == "pending" || lowerStr scan.status == "queued"

/-- durationSeconds: the clamped elapsed seconds computed by
getDuration.  end defaults to the current tick, is overridden by
ended_at when present, and collapses to start for a non-running job
without ended_at; Math.floor of the millisecond difference over 1000
is Int.fdiv; a negative value clamps to 0. -/
def durationSeconds (scan : ScanResult) (now : Int) : Int :=
  let start := scan.created_at
  let endT :=
    match scan.ended_at with
    | some e => e
    | none => if isRunning scan then now else start
  let seconds := (endT - start).fdiv 1000
  if seconds < 0 then 0 else seconds

/-- formatHMS: the zero-padded hours:minutes:seconds rendering of a
non-negative number of seconds; hours are not capped. -/
def formatHMS (seconds : Nat) : String :=
  pad2 (seconds / 3600) ++ ":" ++ pad2 (seconds % 3600 / 60) ++ ":" ++ pad2 (seconds % 60)

/-- getDuration scan now: the string shown in the Duration column. -/
def getDuration (scan : ScanResult) (now : Int) : String :=
  formatHMS (durationSeconds scan now).toNat

/-! ## Job List Poller (Dashboard.fetchScans) -/

/-- DashState: the three pieces of Dashboard state that fetchScans
touches (scans, loading, error). -/
structure DashState where
  scans : List ScanResult
  loading : Bool
  error : Option String
deriving DecidableEq

/-- FetchOutcome: how the awaited getScans() call resolves. -/
inductive FetchOutcome
  | success (data : List ScanResult)
  | failure
deriving DecidableEq

/-- fetchScans silent outcome s: the state after one run of
Dashboard.fetchScans.  Non-silent: loading set and error cleared
before the fetch, error set on catch, loading cleared in finally.
Silent: only a successful fetch replaces the scan table. -/
def fetchScans (silent : Bool) (outcome : FetchOutcome) (s : DashState) : DashState :=
  let s1 := if silent then s else { s with loading := true, error := none }
  let s2 :=
    match outcome with
    | .success data => { s1 with scans := data }
    | .failure => if silent then s1 else { s1 with error := some "Failed to fetch scans" }
  if silent then s2 else { s2 with loading := false }

/-! ## Token Ledger (token breakdown modal in Dashboard) -/

/-- Estimate: one row of the fixed fallbacks table. -/
structure Estimate where
  input : Nat
  output : Nat
deriving DecidableEq

/-- fallbacks step: the fixed per-phase estimate table, keyed by exact
phase-name match. -/
def fallbacks (step : String) : Option Estimate :=
  if step = "Ecosystem Detection" then some ⟨150, 200⟩
  else if step = "Remediation" then some ⟨400, 600⟩
  else none

/-- getInput log: tokens_input when positive, else the fallback input
estimate for the phase, else 0. -/
def getInput (log : ScanLog) : Nat :=
  if log.tokens_input > 0 then log.tokens_input
  else match fallbacks log.step with
    | some e => e.input
    | none => 0

/-- getOutput log: tokens_output when positive, else the fallback
output estimate for the phase, else 0. -/
def getOutput (log : ScanLog) : Nat :=
  if log.tokens_output > 0 then log.tokens_output
  else match fallbacks log.step with
    | some e => e.output
    | none => 0

/-- getTotal log: sum of the effective input and output counts. -/
def getTotal (log : ScanLog) : Nat :=
  getInput log + getOutput log

/-- sumTokens f logs: the footer aggregate
logs.reduce((s, l) s + f(l), 0). -/
def sumTokens (f : ScanLog → Nat) (logs : List ScanLog) : Nat :=
  logs.foldl (fun s l => s + f l) 0

/-- commaGroup: insert a comma after every three characters of a
reversed digit list (the digit grouping of toLocaleString). -/
def commaGroup : List Char → List Char
  | [] => []
  | [a] => [a]
  | [a, b] => [a, b]
  | [a, b, c] => [a, b, c]
  | a :: b :: c :: d :: rest => a :: b :: c :: ',' :: commaGroup (d :: rest)

/-- commaFormat n: n.toLocaleString(), decimal digits grouped in
threes with commas. -/
def commaFormat (n : Nat) : String :=
  String.mk (commaGroup (Nat.repr n).data.reverse).reverse

/-- tokensCell scan: the Tokens column of the job table.  The
authoritative tokens_used when positive, else a fixed placeholder for
a finished job, else an em dash. -/
def tokensCell (scan : ScanResult) : String :=
  if scan.tokens_used > 0 then commaFormat scan.tokens_used
  else if lowerStr scan.status = "finished" then "~1,200" else "—"

/-! ## Report payload (ScanReport in client.ts) -/

/-- Vulnerability: one scanner finding. -/
structure Vulnerability where
  id : String
  path : String
  line : Nat
  msg : String
  severity : String
  type : String
deriving DecidableEq

/-- ScannerSection: vulnerabilities plus the detected-libraries map,
kept as an association list of language to package names. -/
structure ScannerSection where
  vulnerabilities : List Vulnerability
  detected_libraries : List (String × List String)
deriving DecidableEq

/-- Ecosystem: the detected build environment. -/
structure Ecosystem where
  language : String
  docker_image : String
  dep_install_cmd : String
deriving DecidableEq

/-- AnalysisEntry: one analysis row. -/
structure AnalysisEntry where
  id : String
  path : String
  msg : String
  severity : String
deriving DecidableEq

/-- Remediation: one file-level fix triple. -/
structure Remediation where
  path : String
  original_code : String
  fix_code : String
  test_code : String
  type : String
deriving DecidableEq

/-- Verification: one per-file verification result. -/
structure Verification where
  path : String
  verified : Bool
  error : Option String
deriving DecidableEq

/-- ReportCounts: the scalar summary sub-section. -/
structure ReportCounts where
  verified_fixes : Nat
  total_vulnerabilities : Nat
deriving DecidableEq

/-- ReportEnvelope: the inner report object with its seven optional
keys; a none field is an absent key. -/
structure ReportEnvelope where
  scanner : Option ScannerSection
  ecosystem : Option Ecosystem
  analysis : Option (List AnalysisEntry)
  remediation : Option (List Remediation)
  verification : Option (List Verification)
  report : Option ReportCounts
  error : Option String
deriving DecidableEq

/-- ScanReport: the payload of GET /scans/id/report; the inner report
envelope may itself be absent. -/
structure ScanReport where
  id : Int
  repo : String
  status : String
  created_at : Int
  report : Option ReportEnvelope
deriving DecidableEq

/-- envelopeKeys env: Object.keys(env).length, the number of present
keys of the envelope. -/
def envelopeKeys (env : ReportEnvelope) : Nat :=
  (if env.scanner.isSome then 1 else 0)
  + (if env.ecosystem.isSome then 1 else 0)
  + (if env.analysis.isSome then 1 else 0)
  + (if env.remediation.isSome then 1 else 0)
  + (if env.verification.isSome then 1 else 0)
  + (if env.report.isSome then 1 else 0)
  + (if env.error.isSome then 1 else 0)

/-! ## ReportModal derivations -/

/-- verifications rpt: the verification list the modal works with,
r.verification or the empty list, where r is report?.report or an
empty envelope. -/
def verifications (rpt : Option ScanReport) : List Verification :=
  match rpt with
  | none => []
  | some r =>
    match r.report with
    | none => []
    | some env => env.verification.getD []

/-- verifiedCount vs: verifications.filter(v v.verified).length. -/
def verifiedCount (vs : List Verification) : Nat :=
  (vs.filter (fun v => v.verified)).length

/-- verifyStageClass vs: the class of the fourth pipeline step,
completed when verifiedCount equals the list length, warning
otherwise. -/
def verifyStageClass (vs : List Verification) : String :=
  if verifiedCount vs = vs.length then "completed" else "warning"

/-- ReportBody: the two bodies the modal can render once loading is
over. -/
inductive ReportBody
  | emptyState
  | tabs
deriving DecidableEq

/-- reportBody rpt: the modal renders the No Report Data empty state
when the report is null, its inner report envelope is absent, or that
envelope has zero keys; otherwise it renders the tab views. -/
def reportBody (rpt : Option ScanReport) : ReportBody :=
  match rpt with
  | none => .emptyState
  | some r =>
    match r.report with
    | none => .emptyState
    | some env => if envelopeKeys env = 0 then .emptyState else .tabs

/-- innerReportKeys rpt: the key count of the inner report envelope,
zero when the report or the envelope is absent.  This is the quantity
the specification phrases the empty-state rule with. -/
def innerReportKeys (rpt : Option ScanReport) : Nat :=
  match rpt with
  | none => 0
  | some r =>
    match r.report with
    | none => 0
    | some env => envelopeKeys env

/-! ## Verification Log Parser (ReportModal.parsedTests) -/

/-- TestEntry: one structured entry produced by the parser. -/
structure TestEntry where
  name : String
  status : String
  details : Option String
deriving DecidableEq

/-- isWordChar c: the regex class of word characters, ASCII letters,
digits and underscore. -/
def isWordChar (c : Char) : Bool :=
  c.isAlphanum || c == '_'

/-- isSpaceSep c: the whitespace class separating the FAIL or ERROR
prefix from the identifier token. -/
def isSpaceSep (c : Char) : Bool :=
  c == ' ' || c == '\t' || c == '\r' || c == '\x0b' || c == '\x0c'

/-- matchFailToken line: the capture of the line-anchored regex
matching FAIL or ERROR, a colon, one or more whitespace characters,
then one or more word characters, returned as the identifier token. -/
def matchFailToken (line : List Char) : Option (List Char) :=
  let rest? : Option (List Char) :=
    if startsWithL line ("FAIL:".data) then some (line.drop 5)
    else if startsWithL line ("ERROR:".data) then some (line.drop 6)
    else none
  match rest? with
  | none => none
  | some rest =>
    match rest with
    | [] => none
    | c :: cs =>
      if isSpaceSep c then
        let word := (cs.dropWhile isSpaceSep).takeWhile isWordChar
        if word.isEmpty then none else some word
      else none

/-- lineFailEntries output: one FAIL entry, named by the captured
identifier, per line of the blob that matches the failure regex. -/
def lineFailEntries (output : String) : List TestEntry :=
  (splitLines output.data).filterMap
    (fun line => (matchFailToken line).map
      (fun w => { name := String.mk w, status := "FAIL", details := none }))

/-- allPassEntry: the synthetic entry pushed when no failure line was
found but the blob contains OK. -/
def allPassEntry : TestEntry :=
  { name := "All Tests", status := "PASS", details := some "Full suite passed" }

/-- parsedTests output: the failure entries collected per line, or the
single synthetic pass entry when none were found and the blob
contains the substring OK. -/
def parsedTests (output : String) : List TestEntry :=
  let tests := lineFailEntries output
  if tests.isEmpty && includesL output.data ("OK".data) then [allPassEntry]
  else tests

/-! ## Helper lemmas: duration calculator -/

theorem clamp_eq_max (x : Int) : (if x < 0 then 0 else x) = max 0 x := by
  rcases lt_or_ge x 0 with h | h
  · rw [if_pos h, max_eq_left h.le]
  · rw [if_neg (not_lt.mpr h), max_eq_right h]

theorem durationSeconds_ended (scan : ScanResult) (now e : Int)
    (h : scan.ended_at = some e) :
    durationSeconds scan now = max 0 ((e - scan.created_at).fdiv 1000) := by
  simp only [durationSeconds, h, clamp_eq_max]

theorem durationSeconds_running (scan : ScanResult) (now : Int)
    (h : scan.ended_at = none) (hr : isRunning scan = true) :
    durationSeconds scan now = max 0 ((now - scan.created_at).fdiv 1000) := by
  simp only [durationSeconds, h, hr, if_true, clamp_eq_max]

theorem durationSeconds_stale (scan : ScanResult) (now : Int)
    (h : scan.ended_at = none) (hr : isRunning scan = false) :
    durationSeconds scan now = 0 := by
  simp only [durationSeconds, h, hr, if_false, Int.sub_self]
  norm_num [Int.fdiv]

/-! ## Claim theorems -/

/-- C1: duration follows the piecewise rule.  With ended_at set the
elapsed seconds are the clamped floor of (ended_at - created_at) over
1000; without it a pending or queued job measures against now; any
other status yields 0; getDuration renders the clamped seconds as
zero-padded HH:MM:SS; and a pending job created at T polled at
T + 65 seconds shows 00:01:05. -/
theorem C1_duration_rule (scan : ScanResult) (now : Int) :
    (∀ e, scan.ended_at = some e →
      durationSeconds scan now = max 0 ((e - scan.created_at).fdiv 1000))
    ∧ (scan.ended_at = none → isRunning scan = true →
      durationSeconds scan now = max 0 ((now - scan.created_at).fdiv 1000))
    ∧ (scan.ended_at = none → isRunning scan = false →
      durationSeconds scan now = 0)
    ∧ getDuration scan now = formatHMS (durationSeconds scan now).toNat
    ∧ (∀ T : Int,
        getDuration ⟨1, "repo", "pending", T, none, 0⟩ (T + 65000) = "00:01:05") := by
  refine ⟨fun e he => durationSeconds_ended scan now e he,
    fun he hr => durationSeconds_running scan now he hr,
    fun he hr => durationSeconds_stale scan now he hr, rfl, fun T => ?_⟩
  have hrun : isRunning ⟨1, "repo", "pending", T, none, 0⟩ = true := rfl
  have hsec : durationSeconds ⟨1, "repo", "pending", T, none, 0⟩ (T + 65000) = 65 := by
    rw [durationSeconds_running _ _ rfl hrun]
    have h65 : T + 65000 - (⟨1, "repo", "pending", T, none, 0⟩ : ScanResult).created_at
        = (65000 : Int) := by
      show T + 65000 - T = (65000 : Int)
      ring
    rw [h65]
    decide
  show formatHMS (durationSeconds ⟨1, "repo", "pending", T, none, 0⟩ (T + 65000)).toNat
      = "00:01:05"
  rw [hsec]
  decide

/-- C1 witness: the ended branch evaluated at a concrete job. -/
theorem C1_duration_rule_witness :
    durationSeconds ⟨2, "repo", "finished", 1000, some 5500, 0⟩ 0
      = max 0 ((5500 - 1000 : Int).fdiv 1000) :=
  (C1_duration_rule ⟨2, "repo", "finished", 1000, some 5500, 0⟩ 0).1 5500 rfl

/-- C2: effectiveInput is tokens_input when positive, else the fixed
fallback table keyed by exact phase name (Ecosystem Detection 150,
Remediation 400, otherwise 0), and symmetrically effectiveOutput with
200, 600 and 0. -/
theorem C2_token_fallback_rule (log : ScanLog) :
    (log.tokens_input > 0 → getInput log = log.tokens_input)
    ∧ (log.tokens_input = 0 →
        (log.step = "Ecosystem Detection" → getInput log = 150)
        ∧ (log.step = "Remediation" → getInput log = 400)
        ∧ (log.step ≠ "Ecosystem Detection" → log.step ≠ "Remediation" →
            getInput log = 0))
    ∧ (log.tokens_output > 0 → getOutput log = log.tokens_output)
    ∧ (log.tokens_output = 0 →
        (log.step = "Ecosystem Detection" → getOutput log = 200)
        ∧ (log.step = "Remediation" → getOutput log = 600)
        ∧ (log.step ≠ "Ecosystem Detection" → log.step ≠ "Remediation" →
            getOutput log = 0)) := by
  refine ⟨fun h => by simp [getInput, h], fun h => ⟨?_, ?_, ?_⟩,
    fun h => by simp [getOutput, h], fun h => ⟨?_, ?_, ?_⟩⟩
  · intro hs; simp [getInput, h, fallbacks, hs]
  · intro hs; simp [getInput, h, fallbacks, hs]
  · intro h1 h2; simp [getInput, h, fallbacks, h1, h2]
  · intro hs; simp [getOutput, h, fallbacks, hs]
  · intro hs; simp [getOutput, h, fallbacks, hs]
  · intro h1 h2; simp [getOutput, h, fallbacks, h1, h2]

/-- C2 witness: the fallback branch at a concrete remediation log. -/
theorem C2_token_fallback_rule_witness :
    getInput ⟨"Remediation", 0, 0, 0, "m", "msg", 0⟩ = 400 :=
  ((C2_token_fallback_rule ⟨"Remediation", 0, 0, 0, "m", "msg", 0⟩).2.1 rfl).2.1 rfl

/-- C6: for a pending or queued job without ended_at, the elapsed
seconds are never negative and non-decreasing in now. -/
theorem C6_duration_monotone (scan : ScanResult) (now1 now2 : Int)
    (hend : scan.ended_at = none) (hrun : isRunning scan = true) (h : now1 ≤ now2) :
    0 ≤ durationSeconds scan now1
    ∧ durationSeconds scan now1 ≤ durationSeconds scan now2 := by
  rw [durationSeconds_running scan now1 hend hrun,
    durationSeconds_running scan now2 hend hrun]
  refine ⟨le_max_left 0 _, max_le_max le_rfl ?_⟩
  rw [Int.fdiv_eq_ediv _ (by norm_num), Int.fdiv_eq_ediv _ (by norm_num)]
  exact Int.ediv_le_ediv (by norm_num) (by omega)

/-- C6 witness: a concrete queued job at two ticks. -/
theorem C6_duration_monotone_witness :
    0 ≤ durationSeconds ⟨1, "repo", "queued", 0, none, 0⟩ 1000
    ∧ durationSeconds ⟨1, "repo", "queued", 0, none, 0⟩ 1000
      ≤ durationSeconds ⟨1, "repo", "queued", 0, none, 0⟩ 5000 :=
  C6_duration_monotone ⟨1, "repo", "queued", 0, none, 0⟩ 1000 5000 rfl (by decide)
    (by decide)

/-- C3: the Verify pipeline stage is completed exactly when the
verified count equals the verification list length; the count never
exceeds the length; an empty list counts as completed. -/
theorem C3_verify_stage (vs : List Verification) :
    verifiedCount vs ≤ vs.length
    ∧ (verifyStageClass vs = "completed" ↔ verifiedCount vs = vs.length)
    ∧ verifyStageClass [] = "completed" := by
  refine ⟨List.length_filter_le _ _, ?_, by decide⟩
  constructor
  · intro h
    by_contra hne
    rw [verifyStageClass, if_neg hne] at h
    exact absurd h (by decide)
  · intro h
    rw [verifyStageClass, if_pos h]

/-- C3 witness: a mixed concrete verification list. -/
theorem C3_verify_stage_witness :
    verifyStageClass [⟨"a.py", true, none⟩, ⟨"b.py", false, none⟩] ≠ "completed" := by
  have h := (C3_verify_stage [⟨"a.py", true, none⟩, ⟨"b.py", false, none⟩]).2.1
  intro hc
  exact absurd (h.mp hc) (by decide)

/-- C5 helper: a foldl accumulating sums can pull its accumulator
out. -/
theorem foldl_add_shift (f : ScanLog → Nat) (a : Nat) (logs : List ScanLog) :
    logs.foldl (fun s l => s + f l) a = a + logs.foldl (fun s l => s + f l) 0 := by
  induction logs generalizing a with
  | nil => simp
  | cons h t ih =>
    simp only [List.foldl_cons]
    rw [ih (a + f h), ih (0 + f h)]
    omega

/-- C5 helper: the footer aggregate distributes over a pointwise sum
of token counts. -/
theorem sumTokens_add (f g : ScanLog → Nat) (logs : List ScanLog) :
    sumTokens (fun l => f l + g l) logs = sumTokens f logs + sumTokens g logs := by
  induction logs with
  | nil => rfl
  | cons h t ih =>
    simp only [sumTokens, List.foldl_cons] at ih ⊢
    rw [foldl_add_shift _ (0 + (f h + g h)), foldl_add_shift f (0 + f h),
      foldl_add_shift g (0 + g h)]
    omega

/-- C5: effectiveTotal is the sum of effectiveInput and
effectiveOutput, and the aggregate total over the phase logs of a job
is the aggregate input plus the aggregate output. -/
theorem C5_total_additive (log : ScanLog) (logs : List ScanLog) :
    getTotal log = getInput log + getOutput log
    ∧ sumTokens getTotal logs = sumTokens getInput logs + sumTokens getOutput logs :=
  ⟨rfl, sumTokens_add getInput getOutput logs⟩

/-- C5 witness: a two-phase concrete log list. -/
theorem C5_total_additive_witness :
    getTotal ⟨"Remediation", 0, 0, 0, "m", "msg", 0⟩
        = getInput ⟨"Remediation", 0, 0, 0, "m", "msg", 0⟩
          + getOutput ⟨"Remediation", 0, 0, 0, "m", "msg", 0⟩
    ∧ sumTokens getTotal [⟨"Ecosystem Detection", 0, 0, 0, "m", "a", 0⟩,
          ⟨"Scanning", 7, 5, 12, "m", "b", 0⟩]
      = sumTokens getInput [⟨"Ecosystem Detection", 0, 0, 0, "m", "a", 0⟩,
          ⟨"Scanning", 7, 5, 12, "m", "b", 0⟩]
        + sumTokens getOutput [⟨"Ecosystem Detection", 0, 0, 0, "m", "a", 0⟩,
          ⟨"Scanning", 7, 5, 12, "m", "b", 0⟩] :=
  C5_total_additive ⟨"Remediation", 0, 0, 0, "m", "msg", 0⟩
    [⟨"Ecosystem Detection", 0, 0, 0, "m", "a", 0⟩, ⟨"Scanning", 7, 5, 12, "m", "b", 0⟩]

/-- C7: the report view renders the not-generated-yet empty state
exactly when the fetched report is null or its inner report envelope
is absent or has no keys, and renders the tab views otherwise. -/
theorem C7_report_empty_state (rpt : Option ScanReport) :
    (reportBody rpt = ReportBody.emptyState ↔ (rpt = none ∨ innerReportKeys rpt = 0))
    ∧ (reportBody rpt = ReportBody.tabs ↔ ¬(rpt = none ∨ innerReportKeys rpt = 0)) := by
  rcases rpt with _ | r
  · simp [reportBody, innerReportKeys]
  · rcases hr : r.report with _ | env
    · simp [reportBody, innerReportKeys, hr]
    · by_cases hk : envelopeKeys env = 0
      · simp [reportBody, innerReportKeys, hr, hk]
      · simp [reportBody, innerReportKeys, hr, hk]

/-- C7 witness: the fetch-failure case, a null report. -/
theorem C7_report_empty_state_witness :
    reportBody (none : Option ScanReport) = ReportBody.emptyState :=
  (C7_report_empty_state none).1.mpr (Or.inl rfl)

/-- C8: a silent refresh leaves the loading and error flags
untouched for every outcome, retains the whole prior state on a
failed fetch, and on success changes nothing but the scan table. -/
theorem C8_silent_refresh_frame (s : DashState) (outcome : FetchOutcome) :
    (fetchScans true outcome s).loading = s.loading
    ∧ (fetchScans true outcome s).error = s.error
    ∧ fetchScans true FetchOutcome.failure s = s
    ∧ (∀ data, fetchScans true (FetchOutcome.success data) s = { s with scans := data }) := by
  refine ⟨?_, ?_, rfl, fun data => rfl⟩
  · cases outcome <;> rfl
  · cases outcome <;> rfl

/-- C8 witness: a silent failed refresh on a concrete state changes
nothing. -/
theorem C8_silent_refresh_frame_witness :
    fetchScans true FetchOutcome.failure ⟨[], true, some "Failed to fetch scans"⟩
      = ⟨[], true, some "Failed to fetch scans"⟩ :=
  (C8_silent_refresh_frame ⟨[], true, some "Failed to fetch scans"⟩
    FetchOutcome.failure).2.2.1

/-- C9: the job-table token cell shows the authoritative tokens_used
when positive, the fixed placeholder for a finished job otherwise,
and the em dash in any other case. -/
theorem C9_tokens_cell_rule (scan : ScanResult) :
    (scan.tokens_used > 0 → tokensCell scan = commaFormat scan.tokens_used)
    ∧ (scan.tokens_used = 0 → lowerStr scan.status = "finished" →
        tokensCell scan = "~1,200")
    ∧ (scan.tokens_used = 0 → lowerStr scan.status ≠ "finished" →
        tokensCell scan = "—") := by
  refine ⟨fun h => ?_, fun h hf => ?_, fun h hf => ?_⟩
  · rw [tokensCell, if_pos h]
  · rw [tokensCell, if_neg (by omega), if_pos hf]
  · rw [tokensCell, if_neg (by omega), if_neg hf]

/-- C9 witness: a finished job with no authoritative count shows the
placeholder. -/
theorem C9_tokens_cell_rule_witness :
    tokensCell ⟨3, "repo", "Finished", 0, some 9000, 0⟩ = "~1,200" :=
  (C9_tokens_cell_rule ⟨3, "repo", "Finished", 0, some 9000, 0⟩).2.1 rfl (by decide)

/-- Parser helper: every per-line entry carries status FAIL. -/
theorem mem_lineFailEntries_status (s : String) (e : TestEntry)
    (he : e ∈ lineFailEntries s) : e.status = "FAIL" := by
  simp only [lineFailEntries, List.mem_filterMap, Option.map_eq_some'] at he
  obtain ⟨line, -, w, -, hw⟩ := he
  rw [← hw]

/-- Parser helper: with at least one failure line the synthetic pass
entry is not emitted. -/
theorem parsedTests_of_fails (s : String) (h : lineFailEntries s ≠ []) :
    parsedTests s = lineFailEntries s := by
  simp only [parsedTests, List.isEmpty_eq_false.mpr h, Bool.false_and, Bool.false_eq_true,
    if_false]

/-- Parser helper: with no failure line and OK present, the result is
the single synthetic pass entry. -/
theorem parsedTests_of_ok (s : String) (h1 : lineFailEntries s = [])
    (h2 : includesL s.data ("OK".data) = true) :
    parsedTests s = [allPassEntry] := by
  simp only [parsedTests, h1, h2, List.isEmpty_nil, Bool.true_and, if_true]

/-- Parser helper: with no failure line and no OK, the result is
empty. -/
theorem parsedTests_of_silent (s : String) (h1 : lineFailEntries s = [])
    (h2 : includesL s.data ("OK".data) = false) :
    parsedTests s = [] := by
  simp only [parsedTests, h1, h2, List.isEmpty_nil, Bool.true_and, Bool.false_eq_true,
    if_false]

/-- C4: the parser records one FAIL entry, named by the captured
identifier, per line matching the FAIL or ERROR prefix pattern; when
no line matches and the blob contains OK it yields exactly the
synthetic pass entry; the two-failure example, and the empty string,
evaluate as the claim states. -/
theorem C4_parser_behaviour (s : String) :
    (∀ e ∈ lineFailEntries s, e.status = "FAIL")
    ∧ (lineFailEntries s ≠ [] → parsedTests s = lineFailEntries s)
    ∧ (lineFailEntries s = [] → includesL s.data ("OK".data) = true →
        parsedTests s = [allPassEntry])
    ∧ parsedTests "FAIL: test_foo (Case)\nERROR: test_bar" =
        [⟨"test_foo", "FAIL", none⟩, ⟨"test_bar", "FAIL", none⟩]
    ∧ parsedTests "" = [] :=
  ⟨fun e he => mem_lineFailEntries_status s e he,
    fun h => parsedTests_of_fails s h,
    fun h1 h2 => parsedTests_of_ok s h1 h2,
    by decide, by decide⟩

/-- C4 witness: a blob with no failure lines containing OK. -/
theorem C4_parser_behaviour_witness :
    parsedTests "Ran 3 tests in 0.1s OK" = [allPassEntry] :=
  (C4_parser_behaviour "Ran 3 tests in 0.1s OK").2.2.1 (by decide) (by decide)

/-- C10: the parser result never mixes outcomes.  Every entry is FAIL
or PASS, a PASS entry appears exactly when no line matched and the
blob contains OK, in which case the result is the sole synthetic
entry, and a result with a FAIL entry has no PASS entry. -/
theorem C10_parser_invariant (s : String) :
    (∀ e ∈ parsedTests s, e.status = "FAIL" ∨ e.status = "PASS")
    ∧ ((∃ e ∈ parsedTests s, e.status = "PASS") ↔
        (lineFailEntries s = [] ∧ includesL s.data ("OK".data) = true))
    ∧ ((∃ e ∈ parsedTests s, e.status = "PASS") → parsedTests s = [allPassEntry])
    ∧ ((∃ e ∈ parsedTests s, e.status = "FAIL") →
        ¬∃ e ∈ parsedTests s, e.status = "PASS") := by
  rcases hl : lineFailEntries s with _ | ⟨a, t⟩
  · cases hk : includesL s.data ("OK".data)
    · rw [parsedTests_of_silent s hl hk]
      simp
    · rw [parsedTests_of_ok s hl hk]
      refine ⟨fun e he => ?_, ?_, fun _ => rfl, ?_⟩
      · rw [List.mem_singleton] at he
        rw [he]
        exact Or.inr rfl
      · constructor
        · intro _
          exact ⟨rfl, rfl⟩
        · intro _
          exact ⟨allPassEntry, List.mem_singleton.mpr rfl, rfl⟩
      · rintro ⟨e, he, hs⟩
        rw [List.mem_singleton] at he
        rw [he] at hs
        exact absurd hs (by decide)
  · have hne : lineFailEntries s ≠ [] := by rw [hl]; exact List.cons_ne_nil a t
    have hfail : ∀ e ∈ parsedTests s, e.status = "FAIL" := by
      rw [parsedTests_of_fails s hne]
      exact fun e he => mem_lineFailEntries_status s e he
    have hnopass : ¬∃ e ∈ parsedTests s, e.status = "PASS" := by
      rintro ⟨e, he, hs⟩
      rw [hfail e he] at hs
      exact absurd hs (by decide)
    refine ⟨fun e he => Or.inl (hfail e he), ?_, fun h => absurd h hnopass,
      fun _ => hnopass⟩
    constructor
    · intro h
      exact absurd h hnopass
    · rintro ⟨h1, -⟩
      exact absurd h1 (List.cons_ne_nil a t)

/-- C10 witness: a blob whose result is the sole synthetic pass
entry. -/
theorem C10_parser_invariant_witness :
    parsedTests "OK" = [allPassEntry] :=
  (C10_parser_invariant "OK").2.2.1 ⟨allPassEntry, by decide, by decide⟩

end SecurityManager
